import Mathlib

/-!
Shallow embedding of `src/benchmarks/src/main.rs` (elasticsearch-rs benchmark
harness): environment-driven configuration validation (`Config::new`), the
Action/Runner lifecycle (`Runner::run`), and the top-level `main` loop
(filtering, printing, exit status).

Modelling conventions:
- The HTTP layer is an external collaborator.  A `Response` is modelled by its
  status code (a `u16`, here `Nat`) together with the display string of the
  error produced by `error_for_status_code()` on a non-success status.
- A hook invocation result `Result<Response, elasticsearch::Error>` is
  `Except String Response`, the `String` being the transport error's display
  string (`e.to_string()`).
- The behaviour of the measurement hook is a function of the repetition index
  `i` (the hook receives `i`, the client and the runtime; client and runtime
  are fixed for the whole run, so the index is the only varying argument).
- Wall-clock start timestamps and monotonic durations are external inputs: a
  `clock` function gives, per measured-repetition index, the pair
  (start timestamp, elapsed duration in nanoseconds).
- The process environment is a partial map `String → Option String`
  (`std::env::var` returns `Err(NotPresent)`, modelled by `none`, whose
  display string is "environment variable not found").
- To state invocation-count properties, `Runner.run` additionally returns the
  trace of measurement-hook invocations (`hookCalls`) and the number of
  setup-hook invocations (`setupCalls`); these record exactly the calls the
  Rust control flow performs.
-/

namespace Bench

/-- A response from the HTTP layer: its status code (`u16`) and the display
string of the error obtained from `error_for_status_code()` when the status is
not a success. -/
structure Response where
  status_code : Nat
  errMsg : String
  deriving Repr, DecidableEq

/-- `http::StatusCode::is_success()`: 2xx, i.e. `200 <= s && s < 300`. -/
def statusIsSuccess (s : Nat) : Bool :=
  200 ≤ s && s < 300

/-- `record::Git` (module `record` is consumed via its constructors in
`main.rs` lines 124–127). -/
structure Git where
  commit : String
  branch : String
  deriving Repr, DecidableEq

/-- `record::Os` (`main.rs` lines 130–132). -/
structure Os where
  family : String
  deriving Repr, DecidableEq

/-- `record::Service` (`main.rs` lines 120–128). -/
structure Service where
  ty : String
  name : String
  version : String
  git : Git
  deriving Repr, DecidableEq

/-- `record::Target` (`main.rs` lines 140–143). -/
structure Target where
  service : Service
  os : Os
  deriving Repr, DecidableEq

/-- `record::Runtime` (`main.rs` lines 146–149). -/
structure RuntimeRecord where
  name : String
  version : String
  deriving Repr, DecidableEq

/-- `record::Runner` (`main.rs` lines 144–151). -/
structure RunnerRecord where
  service : Service
  runtime : RuntimeRecord
  os : Os
  deriving Repr, DecidableEq

/-- The error kinds of `enum Kind` (`main.rs` lines 314–319).  The
`Response` variant wraps the underlying `elasticsearch::Error`, modelled by
its display string. -/
inductive Kind where
  | Config (msg : String)
  | Response (err : String)
  | Run (errs : List String)
  deriving Repr, DecidableEq

/-- `struct Error { kind: Kind }` (`main.rs` lines 287–290). -/
structure Error where
  kind : Kind
  deriving Repr, DecidableEq

/-- `Error::config` (`main.rs` lines 293–297). -/
def Error.config (msg : String) : Error := ⟨Kind.Config msg⟩

/-- `Error::run` (`main.rs` lines 299–303). -/
def Error.run (errs : List String) : Error := ⟨Kind.Run errs⟩

/-- `impl fmt::Display for Error` (`main.rs` lines 331–339): a `Config` or
`Response` error displays its message, a `Run` error joins its list with
newlines. -/
def Error.toString : Error → String
  | ⟨Kind.Config msg⟩ => msg
  | ⟨Kind.Response err⟩ => err
  | ⟨Kind.Run errs⟩ => String.intercalate "\n" errs

/-- The fixed enumerated list of required configuration inputs, `env_keys`
(`main.rs` lines 81–93), in enumeration order. -/
def env_keys : List String :=
  ["BUILD_ID", "DATA_SOURCE", "CLIENT_BRANCH", "CLIENT_COMMIT",
   "CLIENT_BENCHMARK_ENVIRONMENT", "ELASTICSEARCH_TARGET_URL",
   "ELASTICSEARCH_REPORT_URL", "TARGET_SERVICE_TYPE", "TARGET_SERVICE_NAME",
   "TARGET_SERVICE_VERSION", "TARGET_SERVICE_OS_FAMILY"]

/-- The per-key check in `Config::new` (`main.rs` lines 97–104):
`Ok(v)` with `v` non-empty succeeds with the pair `(key, v)`;
`Ok(v)` with `v` empty fails with `"{key} environment variable is empty"`;
`Err(NotPresent)` fails with `"{key} {err}"` where the `VarError`'s display
string is `"environment variable not found"`. -/
def checkVar (env : String → Option String) (k : String) :
    Except String (String × String) :=
  match env k with
  | some v =>
      if v ≠ "" then Except.ok (k, v)
      else Except.error (k ++ " environment variable is empty")
  | none => Except.error (k ++ " environment variable not found")

/-- The error that one key's check contributes, if any. -/
def checkVarErr (env : String → Option String) (k : String) : Option String :=
  match checkVar env k with
  | Except.error e => some e
  | Except.ok _ => none

/-- The error side of the `partition` in `Config::new` (`main.rs` lines
95–105): the violation messages, one per violated key, in `env_keys`
(enumeration) order. -/
def configViolations (env : String → Option String) : List String :=
  env_keys.filterMap (checkVarErr env)

/-- A required input is violated when it is absent or present-but-empty. -/
def violated (env : String → Option String) (k : String) : Bool :=
  match env k with
  | some v => v == ""
  | none => true

/-- `struct Config` (`main.rs` lines 70–77).  The two `Elasticsearch` clients
(`runner_client`, `report_client`) are external collaborators constructed from
the two URL inputs; the model keeps the URLs they are pointed at. -/
structure Config where
  build_id : String
  environment : String
  target : Target
  runner : RunnerRecord
  runner_client_url : String
  report_client_url : String
  deriving Repr, DecidableEq

/-- Lookup of a validated variable (`vars.get(k).unwrap()` on the `BTreeMap`
built from the `Ok` pairs; since the keys are distinct, the map lookup returns
exactly the environment's value for the key). -/
def getVar (env : String → Option String) (k : String) : String :=
  (env k).getD ""

/-- `Config::new` (`main.rs` lines 80–159): check every required input
independently, collect all violations; if any, return a single `Config`-kind
error whose message is the newline-joined concatenation of the violation
messages in enumeration order; otherwise assemble the `Config` from the
validated values. -/
def Config.new (env : String → Option String) (rustc_version : String) :
    Except Error Config :=
  let errors := configViolations env
  if errors.isEmpty then
    let service : Service :=
      { ty := getVar env "TARGET_SERVICE_TYPE"
        name := getVar env "TARGET_SERVICE_NAME"
        version := getVar env "TARGET_SERVICE_VERSION"
        git :=
          { commit := getVar env "CLIENT_COMMIT"
            branch := getVar env "CLIENT_BRANCH" } }
    let os : Os := { family := getVar env "TARGET_SERVICE_OS_FAMILY" }
    Except.ok
      { build_id := getVar env "BUILD_ID"
        environment := getVar env "CLIENT_BENCHMARK_ENVIRONMENT"
        target := { service := service, os := os }
        runner :=
          { service := service
            runtime := { name := "rust", version := rustc_version }
            os := os }
        runner_client_url := getVar env "ELASTICSEARCH_TARGET_URL"
        report_client_url := getVar env "ELASTICSEARCH_REPORT_URL" }
  else
    Except.error (Error.config (String.intercalate "\n" errors))

/-- `struct Action` (`main.rs` lines 341–350).  The `setup` hook's behaviour
for its single possible invocation is `Option (Except String Response)`
(`None` when the Action defines no setup hook); the measurement hook `run` is
a function of the repetition index (the other arguments, client and runtime,
are fixed for the whole run). -/
structure Action where
  action : String
  category : Option String
  environment : Option String
  warmups : Int
  repetitions : Int
  operations : Option Int
  setup : Option (Except String Response)
  run : Nat → Except String Response

/-- `Action::measure` (`main.rs` lines 361–368): delegates to the `run`
hook. -/
def Action.measure (a : Action) (i : Nat) : Except String Response :=
  a.run i

/-- `Action::category` falling back to the process-wide
`CLIENT_BENCHMARK_CATEGORY` (`main.rs` lines 210–214). -/
def Action.resolvedCategory (a : Action) (clientBenchmarkCategory : String) :
    String :=
  a.category.getD clientBenchmarkCategory

/-- `Action::environment` falling back to `Config::environment` (`main.rs`
lines 215–219). -/
def Action.resolvedEnvironment (a : Action) (config : Config) : String :=
  a.environment.getD config.environment

/-- `struct Stats` (`main.rs` lines 186–191): `start` is the wall-clock
timestamp captured before the hook runs, `duration` the monotonic elapsed time
in nanoseconds, `outcome` the string built by the classification, and
`status_code` the response's status when a response was received. -/
structure Stats where
  start : Nat
  duration : Nat
  outcome : String
  status_code : Option Nat
  deriving Repr, DecidableEq

/-- One entry of the trace of measurement-hook invocations: which loop
performed the call and with which index. -/
inductive HookCall where
  | warmup (i : Nat)
  | measured (i : Nat)
  deriving Repr, DecidableEq

/-- The outcome of `Runner::run`: the `stats` vector left on the Runner, the
`Result<(), Error>` return value, the trace of measurement-hook invocations in
order, and how many times the setup hook was invoked. -/
structure RunResult where
  stats : List Stats
  result : Except Error Unit
  hookCalls : List HookCall
  setupCalls : Nat
  deriving Repr

/-- One warmup iteration's contribution to the error list (`main.rs` lines
236–244): a response with a non-success status contributes
`"warmup {i}: {e}"` where `e` is the status-derived error, a transport error
contributes `"warmup {i}: {e}"`, a success contributes nothing. -/
def warmupErr (a : Action) (i : Nat) : Option String :=
  match a.measure i with
  | Except.ok r =>
      if !statusIsSuccess r.status_code then
        some ("warmup " ++ toString i ++ ": " ++ r.errMsg)
      else none
  | Except.error e => some ("warmup " ++ toString i ++ ": " ++ e)

/-- One measured iteration's contribution to the error list (`main.rs` lines
254–269), tagged `"run {i}: …"`. -/
def runErr (a : Action) (i : Nat) : Option String :=
  match a.measure i with
  | Except.ok r =>
      if !statusIsSuccess r.status_code then
        some ("run " ++ toString i ++ ": " ++ r.errMsg)
      else none
  | Except.error e => some ("run " ++ toString i ++ ": " ++ e)

/-- The `Stats` record appended by one measured iteration (`main.rs` lines
248–276): `start`/`duration` are read from the clock; `outcome` is
`"success"` iff a response with a success status was received, else
`"failure"`; `status_code` is `Some(...)` exactly when a response was
received. -/
def repStats (a : Action) (clock : Nat → Nat × Nat) (i : Nat) : Stats :=
  let startDur := clock i
  match a.measure i with
  | Except.ok r =>
      { start := startDur.1, duration := startDur.2
        outcome := if !statusIsSuccess r.status_code then "failure"
                   else "success"
        status_code := some r.status_code }
  | Except.error _ =>
      { start := startDur.1, duration := startDur.2
        outcome := "failure", status_code := none }

/-- The `errors` vector accumulated across the two loops of `Runner::run`
(`main.rs` lines 221–269): the warmup loop's contributions (tagged
`"warmup {i}"`, indices `0..warmups` in order) followed by the measured
loop's contributions (tagged `"run {i}"`, indices `0..repetitions` in
order). -/
def loopErrors (a : Action) : List String :=
  (List.range a.warmups.toNat).filterMap (warmupErr a) ++
    (List.range a.repetitions.toNat).filterMap (runErr a)

/-- `Runner::run` (`main.rs` lines 208–284).  A Rust `for i in 0..n` loop with
`n : i32` iterates over the indices `0, 1, …, n-1` (no iterations when
`n <= 0`), i.e. over `List.range n.toNat`; each iteration pushes its
contributions onto the vectors independently of their prior contents, so the
loops are translated as `map`/`filterMap` over the index range.  Control
flow:
- `operations`, `category` and `environment` are computed (`operations`
  defaulting to 1) but used only for the error vector's initial capacity and
  for reporting labels, never in the run itself;
- if a setup hook is defined it is invoked once and a failure returns
  immediately (the `?` operator converts the `elasticsearch::Error` into an
  `Error` of kind `Response`) with no stats and no measurement-hook calls;
- the warmup loop calls the hook `warmups` times, recording failures into the
  error list and never into `stats`;
- the measured loop calls the hook `repetitions` times, always appending
  exactly one `Stats`, recording failures into the same error list;
- finally `Ok(())` is returned iff the error list is empty, otherwise a
  `Run`-kind error carrying the whole list. -/
def Runner.run (a : Action) (clock : Nat → Nat × Nat) : RunResult :=
  match a.setup with
  | some (Except.error e) =>
      { stats := [], result := Except.error ⟨Kind.Response e⟩
        hookCalls := [], setupCalls := 1 }
  | s =>
      { stats := (List.range a.repetitions.toNat).map (repStats a clock)
        result :=
          if (loopErrors a).isEmpty then Except.ok ()
          else Except.error (Error.run (loopErrors a))
        hookCalls :=
          (List.range a.warmups.toNat).map HookCall.warmup ++
            (List.range a.repetitions.toNat).map HookCall.measured
        setupCalls := if s.isSome then 1 else 0 }

/-- The setup hook is absent or succeeds (the cases in which `Runner::run`
proceeds past the setup phase). -/
def setupOk (a : Action) : Prop :=
  ∀ e, a.setup ≠ some (Except.error e)

/-- Substring containment on character lists: `pat` occurs as a contiguous
run inside `hay`.  Rust's `str::contains` performs a substring search on the
UTF-8 bytes; for valid UTF-8 (self-synchronizing) this coincides with
substring containment on the character sequences. -/
def containsSub (hay pat : List Char) : Bool :=
  pat.isPrefixOf hay ||
    match hay with
    | [] => false
    | _ :: t => containsSub t pat

/-- `String::contains` on strings: `strContains hay pat` holds iff `pat` is a
substring of `hay`. -/
def strContains (hay pat : String) : Bool :=
  containsSub hay.data pat.data

/-- The skip test of the `main` loop (`main.rs` lines 35–37): an Action is
skipped (`continue`, before any Runner is built) iff its name is contained in
the process-wide `FILTER` value as a substring
(`FILTER.contains(&operation.action)`). -/
def skipAction (filter : String) (a : Action) : Bool :=
  strContains filter a.action

/-- The line printed for one `Stats` record (`main.rs` lines 46–52):
`"{action}: {duration}ns"` with the duration in nanoseconds. -/
def statLine (a : Action) (s : Stats) : String :=
  a.action ++ ": " ++ toString s.duration ++ "ns"

/-- The `println!` output produced by one iteration of the `main` loop
(`main.rs` lines 34–53) for one Action: nothing if the Action is skipped;
otherwise the Runner runs, a failing `run()` prints its error's display
string (the loop does not terminate), then one line per `Stats` record in
order. -/
def actionOutput (filter : String) (clock : Nat → Nat × Nat) (a : Action) :
    List String :=
  if skipAction filter a then []
  else
    let res := Runner.run a clock
    (match res.result with
     | Except.ok _ => []
     | Except.error e => [e.toString]) ++ res.stats.map (statLine a)

/-- The measurement-hook invocations performed for one Action by one
iteration of the `main` loop: none if skipped, the Runner's trace
otherwise. -/
def actionHookCalls (filter : String) (clock : Nat → Nat × Nat) (a : Action) :
    List HookCall :=
  if skipAction filter a then [] else (Runner.run a clock).hookCalls

/-- The `Stats` records produced for one Action by one iteration of the
`main` loop: none if skipped, the Runner's stats otherwise. -/
def actionStats (filter : String) (clock : Nat → Nat × Nat) (a : Action) :
    List Stats :=
  if skipAction filter a then [] else (Runner.run a clock).stats

/-- `main` (`main.rs` lines 27–56): validate the configuration (a `Config`
error propagates out of `main` via `?`, before any Action runs); then iterate
over the catalog, skipping filtered Actions, printing each non-skipped
Action's error (if any) followed by its stat lines; finally return `Ok(())` —
Run errors are printed, never returned. -/
def mainRun (env : String → Option String) (rustc_version : String)
    (filter : String) (catalog : List Action) (clock : Nat → Nat × Nat) :
    List String × Except Error Unit :=
  match Config.new env rustc_version with
  | Except.error e => ([], Except.error e)
  | Except.ok _ =>
      ((catalog.map (actionOutput filter clock)).flatten, Except.ok ())

/-- The violation message a violated key contributes: the present-but-empty
and the absent case produce different texts. -/
def violationMsg (env : String → Option String) (k : String) : String :=
  match env k with
  | some _ => k ++ " environment variable is empty"
  | none => k ++ " environment variable not found"

/-! ### Concrete environments, actions and clocks used as witnesses -/

/-- Environment with no variable set. -/
def envAllMissing : String → Option String := fun _ => none

/-- Environment with every variable set to the empty string. -/
def envAllEmpty : String → Option String := fun _ => some ""

/-- Environment with `BUILD_ID` missing and every other variable set to its
own name. -/
def envOneMissing : String → Option String :=
  fun k => if k = "BUILD_ID" then none else some k

/-- Environment with every variable set to its own (non-empty) name. -/
def envComplete : String → Option String := fun k => some k

/-- A trivial clock: repetition `i` starts at time `i` and takes `5`
nanoseconds. -/
def clock0 : Nat → Nat × Nat := fun i => (i, 5)

/-- A concrete action named `ping`: no setup hook, 1 warmup, 2 repetitions;
the hook fails with a transport error at index 0 and returns a `200` response
otherwise. -/
def pingAct : Action :=
  { action := "ping", category := none, environment := none
    warmups := 1, repetitions := 2, operations := none, setup := none
    run := fun i =>
      if i == 0 then Except.error "transport down"
      else Except.ok { status_code := 200, errMsg := "" } }

/-- A concrete action whose setup hook fails. -/
def setupFailAct : Action :=
  { action := "index", category := none, environment := none
    warmups := 3, repetitions := 4, operations := some 2
    setup := some (Except.error "setup exploded")
    run := fun _ => Except.ok { status_code := 200, errMsg := "" } }

/-- A concrete action whose name is the empty string. -/
def emptyNameAct : Action :=
  { action := "", category := none, environment := none
    warmups := 1, repetitions := 1, operations := none, setup := none
    run := fun _ => Except.ok { status_code := 200, errMsg := "" } }

/-- A concrete action that always succeeds: `ok`-setup, 0 warmups, 3
repetitions, every response `201`. -/
def okAct : Action :=
  { action := "ok", category := none, environment := none
    warmups := 0, repetitions := 3, operations := some 1
    setup := some (Except.ok { status_code := 200, errMsg := "" })
    run := fun _ => Except.ok { status_code := 201, errMsg := "" } }

/-! ### Helper lemmas -/

/-- The violation list collected by `Config::new` is exactly one message per
violated key, in enumeration order. -/
theorem filterMapCheck_eq (env : String → Option String) (l : List String) :
    l.filterMap (checkVarErr env) =
      (l.filter (violated env)).map (violationMsg env) := by
  induction l with
  | nil => rfl
  | cons k t ih =>
      rw [List.filterMap_cons, List.filter_cons]
      cases h : env k with
      | none =>
          rw [show checkVarErr env k = some (violationMsg env k) by
                simp [checkVarErr, checkVar, violationMsg, h],
              show violated env k = true by simp [violated, h]]
          simp [ih]
      | some v =>
          by_cases hv : v = ""
          · subst hv
            rw [show checkVarErr env k = some (violationMsg env k) by
                  simp [checkVarErr, checkVar, violationMsg, h],
                show violated env k = true by simp [violated, h]]
            simp [ih]
          · rw [show checkVarErr env k = none by
                  simp [checkVarErr, checkVar, h, hv],
                show violated env k = false by simp [violated, h, hv]]
            simp [ih]

theorem configViolations_eq (env : String → Option String) :
    configViolations env = (env_keys.filter (violated env)).map (violationMsg env) :=
  filterMapCheck_eq env env_keys

/-- When some violation exists, `Config::new` returns the aggregated
`Config`-kind error. -/
theorem config_new_of_violation (env : String → Option String)
    (rustc_version : String) (h : configViolations env ≠ []) :
    Config.new env rustc_version =
      Except.error (Error.config (String.intercalate "\n" (configViolations env))) := by
  rw [Config.new]
  simp only [List.isEmpty_iff]
  rw [if_neg h]

/-- Strings with a common prefix and different suffixes are different. -/
theorem append_ne_of_suffix_ne (k a b : String) (h : a ≠ b) :
    k ++ a ≠ k ++ b := by
  intro he
  apply h
  have hd := congrArg String.data he
  rw [String.data_append, String.data_append] at hd
  exact String.ext_iff.mpr (List.append_cancel_left hd)

/-- `Runner::run` past a non-failing setup phase: the shape of the result. -/
theorem run_of_setupOk (a : Action) (clock : Nat → Nat × Nat)
    (hs : setupOk a) :
    Runner.run a clock =
      { stats := (List.range a.repetitions.toNat).map (repStats a clock)
        result :=
          if (loopErrors a).isEmpty then Except.ok ()
          else Except.error (Error.run (loopErrors a))
        hookCalls :=
          (List.range a.warmups.toNat).map HookCall.warmup ++
            (List.range a.repetitions.toNat).map HookCall.measured
        setupCalls := if a.setup.isSome then 1 else 0 } := by
  cases h : a.setup with
  | none => simp [Runner.run, h]
  | some x =>
      cases x with
      | error e => exact absurd h (hs e)
      | ok r => simp [Runner.run, h]

/-! ### Claim theorems -/

/-- C2: whenever at least one required configuration input is missing or
empty, `Config::new` checks every input independently and returns a single
`Config`-kind error whose message is the newline-joined concatenation of
exactly one violation message per violated input, in the enumeration order of
the required-input list; and `Config` is constructed exactly when no input is
violated. -/
theorem config_new_aggregates_all_violations
    (env : String → Option String) (rustc_version : String) :
    ((env_keys.filter (violated env)).length ≥ 1 →
      Config.new env rustc_version =
        Except.error (Error.config (String.intercalate "\n"
          ((env_keys.filter (violated env)).map (violationMsg env)))) ∧
      (configViolations env).length = (env_keys.filter (violated env)).length) ∧
    (env_keys.filter (violated env) = [] →
      (Config.new env rustc_version).isOk = true) := by
  constructor
  · intro hK
    have hne : env_keys.filter (violated env) ≠ [] := by
      intro h0
      rw [h0] at hK
      simp at hK
    have hv : configViolations env ≠ [] := by
      rw [configViolations_eq]
      simpa using hne
    refine ⟨?_, ?_⟩
    · rw [config_new_of_violation env rustc_version hv, configViolations_eq]
    · rw [configViolations_eq, List.length_map]
  · intro hnil
    have hv : configViolations env = [] := by
      rw [configViolations_eq, hnil]
      rfl
    rw [Config.new, hv]
    rfl

/-- Witness for C2: with only `BUILD_ID` missing and all other inputs
present and non-empty, `Config::new` fails with the single aggregated
`Config` error. -/
theorem config_new_aggregates_all_violations_witness :
    (env_keys.filter (violated envOneMissing)).length ≥ 1 ∧
    Config.new envOneMissing "1.0.0" =
      Except.error (Error.config "BUILD_ID environment variable not found") := by
  refine ⟨by decide, ?_⟩
  have h :=
    ((config_new_aggregates_all_violations envOneMissing "1.0.0").1 (by decide)).1
  rw [h]
  rfl

/-- C7: for each required configuration input, the violation message when the
input is absent differs from the violation message when it is present but
empty (the empty case reads "{name} environment variable is empty"), and
either violation makes `Config::new` fail with an error of kind `Config`. -/
theorem violation_messages_distinct (k : String)
    (envA envE : String → Option String) (rustc_version : String)
    (hk : k ∈ env_keys) (hA : envA k = none) (hE : envE k = some "") :
    checkVar envA k = Except.error (k ++ " environment variable not found") ∧
    checkVar envE k = Except.error (k ++ " environment variable is empty") ∧
    k ++ " environment variable not found" ≠ k ++ " environment variable is empty" ∧
    (∃ msg, Config.new envA rustc_version = Except.error (Error.config msg)) ∧
    (∃ msg, Config.new envE rustc_version = Except.error (Error.config msg)) := by
  have violNe : ∀ (env : String → Option String), violated env k = true →
      configViolations env ≠ [] := by
    intro env hviol h0
    have hmem : k ∈ env_keys.filter (violated env) :=
      List.mem_filter.mpr ⟨hk, hviol⟩
    have hne : env_keys.filter (violated env) ≠ [] := List.ne_nil_of_mem hmem
    rw [configViolations_eq] at h0
    exact hne (List.map_eq_nil_iff.mp h0)
  refine ⟨?_, ?_, ?_, ?_, ?_⟩
  · simp [checkVar, hA]
  · simp [checkVar, hE]
  · exact append_ne_of_suffix_ne k _ _ (by decide)
  · exact ⟨_, config_new_of_violation envA rustc_version
      (violNe envA (by simp [violated, hA]))⟩
  · exact ⟨_, config_new_of_violation envE rustc_version
      (violNe envE (by simp [violated, hE]))⟩

/-- Witness for C7: the `BUILD_ID` input, absent in one environment and
empty in another. -/
theorem violation_messages_distinct_witness :
    "BUILD_ID" ∈ env_keys ∧ envAllMissing "BUILD_ID" = none ∧
    envAllEmpty "BUILD_ID" = some "" ∧
    (checkVar envAllMissing "BUILD_ID" =
      Except.error "BUILD_ID environment variable not found" ∧
     checkVar envAllEmpty "BUILD_ID" =
      Except.error "BUILD_ID environment variable is empty") := by
  have h := violation_messages_distinct "BUILD_ID" envAllMissing envAllEmpty
    "1.0.0" (by decide) rfl rfl
  exact ⟨by decide, rfl, rfl, h.1, h.2.1⟩

/-- C1: for an Action with non-negative warmup and repetition counts whose
setup hook is absent or succeeds, `Runner::run` invokes the measurement hook
exactly `warmups + repetitions` times (first the warmup indices in order,
then the measured indices in order), appends exactly `repetitions`
StatsRecords — one per measured repetition, none per warmup — and never
stops the measured loop early, whatever the invocation outcomes. -/
theorem runner_hook_count (a : Action) (clock : Nat → Nat × Nat)
    (hs : setupOk a) (_hw : 0 ≤ a.warmups) (_hr : 0 ≤ a.repetitions) :
    (Runner.run a clock).hookCalls =
      (List.range a.warmups.toNat).map HookCall.warmup ++
        (List.range a.repetitions.toNat).map HookCall.measured ∧
    (Runner.run a clock).hookCalls.length =
      a.warmups.toNat + a.repetitions.toNat ∧
    (Runner.run a clock).stats =
      (List.range a.repetitions.toNat).map (repStats a clock) ∧
    (Runner.run a clock).stats.length = a.repetitions.toNat := by
  rw [run_of_setupOk a clock hs]
  refine ⟨rfl, ?_, rfl, ?_⟩ <;> simp

/-- Witness for C1: the `ping` action (1 warmup, 2 repetitions, one of which
fails) yields 3 hook invocations and 2 StatsRecords. -/
theorem runner_hook_count_witness :
    setupOk pingAct ∧ 0 ≤ pingAct.warmups ∧ 0 ≤ pingAct.repetitions ∧
    (Runner.run pingAct clock0).hookCalls.length = 1 + 2 ∧
    (Runner.run pingAct clock0).stats.length = 2 := by
  have h := runner_hook_count pingAct clock0
    (fun e he => Option.noConfusion he) (by decide) (by decide)
  exact ⟨fun e he => Option.noConfusion he, by decide, by decide,
    h.2.1, h.2.2.2⟩

/-- C3: each measured repetition's StatsRecord has outcome `"success"` iff
the hook returned a response with a status in the success range; a transport
error yields outcome `"failure"` with no status code; and the status code is
present (and equal to the response's) exactly when a response was received,
even a non-success one. -/
theorem stats_outcome_classification (a : Action) (clock : Nat → Nat × Nat)
    (hs : setupOk a) (i : Nat) (hi : i < a.repetitions.toNat) :
    ∃ s, (Runner.run a clock).stats[i]? = some s ∧
      (s.outcome = "success" ↔
        ∃ r, a.measure i = Except.ok r ∧ statusIsSuccess r.status_code = true) ∧
      (∀ e, a.measure i = Except.error e →
        s.outcome = "failure" ∧ s.status_code = none) ∧
      s.status_code = (a.measure i).toOption.map Response.status_code := by
  refine ⟨repStats a clock i, ?_, ?_, ?_, ?_⟩
  · rw [run_of_setupOk a clock hs]
    simp [List.getElem?_map, List.getElem?_range hi]
  · cases h : a.measure i with
    | ok r =>
        by_cases hsucc : statusIsSuccess r.status_code = true
        · rw [show (repStats a clock i).outcome = "success" by
                simp [repStats, h, hsucc]]
          exact ⟨fun _ => ⟨r, rfl, hsucc⟩, fun _ => rfl⟩
        · rw [show (repStats a clock i).outcome = "failure" by
                simp [repStats, h, Bool.not_eq_true] at hsucc ⊢
                simp [hsucc]]
          constructor
          · intro hcontr
            exact absurd hcontr (by decide)
          · rintro ⟨r2, hr2, hs2⟩
            injection hr2 with hrr
            subst hrr
            exact absurd hs2 hsucc
    | error e =>
        rw [show (repStats a clock i).outcome = "failure" by
              simp [repStats, h]]
        constructor
        · intro hcontr
          exact absurd hcontr (by decide)
        · rintro ⟨r2, hr2, _⟩
          cases hr2
  · intro e he
    simp [repStats, he]
  · cases h : a.measure i with
    | ok r => simp [repStats, h, Except.toOption]
    | error e => simp [repStats, h, Except.toOption]

/-- Witness for C3: repetition 0 of the `ping` action fails with a transport
error, so its record is a failure with no status code. -/
theorem stats_outcome_classification_witness :
    setupOk pingAct ∧ 0 < pingAct.repetitions.toNat ∧
    (∃ s, (Runner.run pingAct clock0).stats[0]? = some s ∧
      (s.outcome = "success" ↔
        ∃ r, pingAct.measure 0 = Except.ok r ∧
          statusIsSuccess r.status_code = true) ∧
      (∀ e, pingAct.measure 0 = Except.error e →
        s.outcome = "failure" ∧ s.status_code = none) ∧
      s.status_code = (pingAct.measure 0).toOption.map Response.status_code) :=
  ⟨fun e he => Option.noConfusion he, by decide,
    stats_outcome_classification pingAct clock0
      (fun e he => Option.noConfusion he) 0 (by decide)⟩

/-- C4 counterexample: for the action whose setup hook fails, zero errors are
recorded across the warmup and measured loops (they never run, and the hook
would succeed anyway), yet `Runner::run` does not return success — it returns
a `Response`-kind error, not a `Run`-kind one — refuting the unconditional
"success iff zero recorded errors" contract. -/
theorem run_error_despite_no_recorded_errors :
    loopErrors setupFailAct = [] ∧
    (Runner.run setupFailAct clock0).result =
      Except.error ⟨Kind.Response "setup exploded"⟩ :=
  ⟨rfl, rfl⟩

/-- C4 (amended): past a non-failing setup, `Runner::run` succeeds iff zero errors were
recorded across the warmup and measured loops; otherwise it returns a
`Run`-kind error carrying the full list (warmup entries tagged
`"warmup {i}"` in index order, then measured entries tagged `"run {i}"` in
index order, both from zero); in either case the StatsRecord sequence is
fully populated on the Runner, decoupled from the error result. -/
theorem run_result_iff_no_loop_errors (a : Action) (clock : Nat → Nat × Nat)
    (hs : setupOk a) :
    ((Runner.run a clock).result = Except.ok () ↔ loopErrors a = []) ∧
    (loopErrors a ≠ [] →
      (Runner.run a clock).result = Except.error (Error.run (loopErrors a))) ∧
    (Runner.run a clock).stats.length = a.repetitions.toNat := by
  rw [run_of_setupOk a clock hs]
  refine ⟨?_, ?_, by simp⟩
  · by_cases h : loopErrors a = [] <;> simp [h]
  · intro h
    simp [h]

/-- Witness for C4: the `ping` action records a warmup error and a measured
error, so `run()` returns the aggregated `Run` error while both StatsRecords
are present. -/
theorem run_result_iff_no_loop_errors_witness :
    setupOk pingAct ∧ loopErrors pingAct ≠ [] ∧
    (Runner.run pingAct clock0).result =
      Except.error (Error.run (loopErrors pingAct)) ∧
    (Runner.run pingAct clock0).stats.length = 2 := by
  have h := run_result_iff_no_loop_errors pingAct clock0
    (fun e he => Option.noConfusion he)
  exact ⟨fun e he => Option.noConfusion he, by decide,
    h.2.1 (by decide), h.2.2⟩

/-- C6: a defined, failing setup hook is invoked exactly once and
`Runner::run` immediately returns its failure (as a `Response`-kind error)
with zero warmup invocations, zero measured invocations, and an empty
StatsRecord sequence. -/
theorem setup_failure_aborts (a : Action) (clock : Nat → Nat × Nat)
    (e : String) (h : a.setup = some (Except.error e)) :
    Runner.run a clock =
      { stats := [], result := Except.error ⟨Kind.Response e⟩
        hookCalls := [], setupCalls := 1 } := by
  simp [Runner.run, h]

/-- Witness for C6: the action whose setup hook fails with
"setup exploded". -/
theorem setup_failure_aborts_witness :
    setupFailAct.setup = some (Except.error "setup exploded") ∧
    Runner.run setupFailAct clock0 =
      { stats := [], result := Except.error ⟨Kind.Response "setup exploded"⟩
        hookCalls := [], setupCalls := 1 } :=
  ⟨rfl, setup_failure_aborts setupFailAct clock0 "setup exploded" rfl⟩

/-- One-step unfolding of `containsSub` at an empty haystack. -/
theorem containsSub_nil (pat : List Char) :
    containsSub [] pat = (pat.isPrefixOf [] || false) := rfl

/-- One-step unfolding of `containsSub` at a non-empty haystack. -/
theorem containsSub_cons (c : Char) (t pat : List Char) :
    containsSub (c :: t) pat = (pat.isPrefixOf (c :: t) || containsSub t pat) :=
  rfl

/-- The empty pattern is a substring of every haystack. -/
theorem containsSub_nil_pat (hay : List Char) : containsSub hay [] = true := by
  cases hay with
  | nil => rfl
  | cons c t => rfl

/-- `containsSub` decides substring containment: it holds exactly when the
pattern is an infix of the haystack. -/
theorem containsSub_iff_infix (hay pat : List Char) :
    containsSub hay pat = true ↔ pat <:+: hay := by
  induction hay with
  | nil =>
      rw [containsSub_nil]
      simp [List.isPrefixOf_iff_prefix]
  | cons c t ih =>
      rw [containsSub_cons]
      simp [List.isPrefixOf_iff_prefix, ih, List.infix_cons_iff]

/-- C9: two Actions differing only in the `operations` field produce
identical `Runner::run` outcomes — same measurement-hook invocations, same
StatsRecord sequence, same success/error result; `operations` only sizes the
internal error vector's initial capacity. -/
theorem operations_field_unobservable (a : Action) (o1 o2 : Option Int)
    (clock : Nat → Nat × Nat) :
    Runner.run { a with operations := o1 } clock =
      Runner.run { a with operations := o2 } clock := rfl

/-- C5 counterexample: with the empty (default) filter value, the Action
whose name is the empty string IS skipped — the skip test
`FILTER.contains(&operation.action)` holds because the empty string is a
substring of the empty filter — so the empty filter does not "match
nothing": the Action is skipped entirely, with no hook invocation, no
StatsRecord and no output. -/
theorem empty_filter_skips_empty_name :
    skipAction "" emptyNameAct = true ∧
    actionHookCalls "" clock0 emptyNameAct = [] ∧
    actionStats "" clock0 emptyNameAct = [] ∧
    actionOutput "" clock0 emptyNameAct = [] :=
  ⟨rfl, rfl, rfl, rfl⟩

/-- C5 (amended): an Action is skipped entirely — no hook invocation, no
StatsRecords, no output — iff its name occurs as a substring of the filter
value; the empty filter value skips exactly the Actions whose name is empty,
so no Action with a non-empty name is skipped by default; with filter
`"index"` an Action named `"index"` is skipped while one named `"ping"` runs
unaffected. -/
theorem filter_skip_iff_substring (filter : String) (a : Action)
    (clock : Nat → Nat × Nat) :
    (skipAction filter a = true ↔ a.action.data <:+: filter.data) ∧
    (skipAction filter a = true →
      actionHookCalls filter clock a = [] ∧
      actionStats filter clock a = [] ∧
      actionOutput filter clock a = []) ∧
    (skipAction filter a = false →
      actionHookCalls filter clock a = (Runner.run a clock).hookCalls ∧
      actionStats filter clock a = (Runner.run a clock).stats) ∧
    (skipAction "" a = true ↔ a.action = "") ∧
    (a.action = "index" → skipAction "index" a = true) ∧
    (a.action = "ping" → skipAction "index" a = false) := by
  refine ⟨?_, ?_, ?_, ?_, ?_, ?_⟩
  · exact containsSub_iff_infix filter.data a.action.data
  · intro h
    exact ⟨by simp [actionHookCalls, h], by simp [actionStats, h],
      by simp [actionOutput, h]⟩
  · intro h
    exact ⟨by simp [actionHookCalls, h], by simp [actionStats, h]⟩
  · rw [show skipAction "" a = containsSub [] a.action.data from rfl,
        containsSub_nil]
    simp [List.isPrefixOf_iff_prefix, String.ext_iff]
  · intro h
    rw [show skipAction "index" a = strContains "index" a.action from rfl, h]
    decide
  · intro h
    rw [show skipAction "index" a = strContains "index" a.action from rfl, h]
    decide

/-- Witness for the amended C5: the `ping` action is not skipped by filter
`"index"` and its stats reach the output loop untouched. -/
theorem filter_skip_iff_substring_witness :
    skipAction "index" pingAct = false ∧
    actionStats "index" clock0 pingAct = (Runner.run pingAct clock0).stats := by
  have h := filter_skip_iff_substring "index" pingAct clock0
  have h6 := h.2.2.2.2.2 rfl
  exact ⟨h6, (h.2.2.1 h6).2⟩

/-- C10: an Action whose name is the empty string is skipped under every
filter value — including the default empty one — because the empty string is
a substring of every string; it is never run and emits no StatsRecords and no
output. -/
theorem empty_name_always_skipped (filter : String) (a : Action)
    (clock : Nat → Nat × Nat) (h : a.action = "") :
    skipAction filter a = true ∧
    actionHookCalls filter clock a = [] ∧
    actionStats filter clock a = [] ∧
    actionOutput filter clock a = [] := by
  have hskip : skipAction filter a = true := by
    rw [show skipAction filter a = containsSub filter.data a.action.data
          from rfl, h]
    exact containsSub_nil_pat filter.data
  exact ⟨hskip, by simp [actionHookCalls, hskip], by simp [actionStats, hskip],
    by simp [actionOutput, hskip]⟩

/-- Witness for C10: the empty-named action is skipped even under the filter
`"xyz"`. -/
theorem empty_name_always_skipped_witness :
    emptyNameAct.action = "" ∧ skipAction "xyz" emptyNameAct = true ∧
    actionStats "xyz" clock0 emptyNameAct = [] := by
  have h := empty_name_always_skipped "xyz" emptyNameAct clock0 rfl
  exact ⟨rfl, h.1, h.2.2.1⟩

/-- C8: `main` prints, for each non-skipped Action past a non-failing setup,
the Action's error message (if its run failed) followed by exactly one line
per measured repetition of the form `"<action-name>: <duration>ns"`; the
process result is `Ok` whenever startup configuration validation succeeds —
Run errors are printed, never returned — and is an error exactly when
configuration validation fails. -/
theorem main_prints_and_exit (env : String → Option String)
    (rustc_version filter : String) (catalog : List Action)
    (clock : Nat → Nat × Nat) :
    (configViolations env = [] →
      (mainRun env rustc_version filter catalog clock).2 = Except.ok () ∧
      (mainRun env rustc_version filter catalog clock).1 =
        (catalog.map (actionOutput filter clock)).flatten) ∧
    (configViolations env ≠ [] →
      ∃ msg, (mainRun env rustc_version filter catalog clock).2 =
          Except.error (Error.config msg) ∧
        (mainRun env rustc_version filter catalog clock).1 = []) ∧
    (∀ a, skipAction filter a = false → setupOk a →
      actionOutput filter clock a =
        (match (Runner.run a clock).result with
          | Except.ok _ => []
          | Except.error e => [e.toString]) ++
          (Runner.run a clock).stats.map (statLine a) ∧
      ((Runner.run a clock).stats.map (statLine a)).length =
        a.repetitions.toNat ∧
      ∀ s, statLine a s = a.action ++ ": " ++ toString s.duration ++ "ns") := by
  refine ⟨?_, ?_, ?_⟩
  · intro hv
    cases hc : Config.new env rustc_version with
    | error e =>
        simp [Config.new, hv] at hc
    | ok c =>
        exact ⟨by simp [mainRun, hc], by simp [mainRun, hc]⟩
  · intro hnv
    have herr := config_new_of_violation env rustc_version hnv
    exact ⟨String.intercalate "\n" (configViolations env),
      by simp [mainRun, herr, Error.config], by simp [mainRun, herr]⟩
  · intro a hskip hsOk
    refine ⟨by simp [actionOutput, hskip], ?_, fun s => rfl⟩
    rw [run_of_setupOk a clock hsOk]
    simp

/-- Witness for C8: a complete environment makes `main` succeed even though
the `ping` action reports Run errors; a fully missing environment makes
`main` fail with a `Config` error before printing anything; the `ping`
action contributes exactly two stat lines for its two repetitions. -/
theorem main_prints_and_exit_witness :
    (mainRun envComplete "1.0.0" "" [pingAct] clock0).2 = Except.ok () ∧
    (∃ msg, (mainRun envAllMissing "1.0.0" "" [pingAct] clock0).2 =
        Except.error (Error.config msg) ∧
      (mainRun envAllMissing "1.0.0" "" [pingAct] clock0).1 = []) ∧
    ((Runner.run pingAct clock0).stats.map (statLine pingAct)).length = 2 := by
  have h1 := (main_prints_and_exit envComplete "1.0.0" "" [pingAct] clock0).1
    (by decide)
  have h2 :=
    (main_prints_and_exit envAllMissing "1.0.0" "" [pingAct] clock0).2.1
    (by decide)
  have h3 := (main_prints_and_exit envComplete "1.0.0" "" [pingAct]
    clock0).2.2 pingAct (by decide) (fun e he => Option.noConfusion he)
  exact ⟨h1.1, h2, h3.2.1⟩

end Bench
